import Mathlib

/-!
Shallow embedding of the curriculum core of `apps/curriculum/schema.py` and
`apps/curriculum/excel.py` (course-load system).

Python `dict`s preserve insertion order and have unique keys; they are
modelled as association lists `List (String × _)` with Python-dict insert
(replace-in-place) and delete semantics.  Python exceptions are modelled
with `Except Err`; each `Err` constructor corresponds to one `raise` site
(or exception class) of the source and carries the data interpolated into
the Python message.  Machine integers are Python `int`s, hence `Int`.
-/

/-- Errors raised by the curriculum core.  Each constructor models one
`raise` site (`ValidationError`, `KeyError`, `ValueError`) of the source,
carrying the values interpolated into the Python message. -/
inductive Err where
  | creditsNotPositive : Err
  | totalHoursMismatch (total expected : Int) : Err
  | individualMissing : Err
  | instructionalMissing : Err
  | codeNameRequired : Err
  | noSemesters : Err
  | duplicateSemester (n : Int) : Err
  | keyError (k : String) : Err
  | valueError (s : String) : Err
  | invalidStructure (e : Err) : Err
  | courseValidationFailed (e : Err) : Err
  | codeMismatch (key : String) (declared : Option String) : Err
  | invalidPrereqs (code : String) (unknown : List String) : Err
  | alreadyExists (code : String) : Err
  | doesNotExist (code : String) : Err
  | isPrereqFor (code target : String) : Err
  | missingColumns (cols : List String) : Err
  | excelError (e : Err) : Err
  | previewError (e : Err) : Err
  | previewOther (e : Err) : Err
deriving DecidableEq, Repr

/-- `schema.py` `HourDistribution`: five instructional-hour buckets. -/
structure HourDistribution where
  lecture : Int := 0
  lab : Int := 0
  practice : Int := 0
  seminar : Int := 0
  individual : Int := 0
deriving DecidableEq, Repr

def HourDistribution.total_hours (h : HourDistribution) : Int :=
  h.lecture + h.lab + h.practice + h.seminar + h.individual

def HourDistribution.instructional_hours (h : HourDistribution) : Int :=
  h.lecture + h.lab + h.practice + h.seminar

/-- `schema.py` `SemesterData`: one offering of a course in one semester. -/
structure SemesterData where
  semester : Int
  credits : Int
  hours : HourDistribution
deriving DecidableEq, Repr

/-- `schema.py` `SemesterData.validate`, lines 52-69: four checks in source
order, raising on the first failure (the source's locals `expected_hours`
and `total_hours` are inlined). -/
def SemesterData.validate (sd : SemesterData) : Except Err Unit :=
  if sd.credits ≤ 0 then .error .creditsNotPositive
  else if sd.hours.total_hours ≠ sd.credits * 30 then
    .error (.totalHoursMismatch sd.hours.total_hours (sd.credits * 30))
  else if sd.hours.individual ≤ 0 then .error .individualMissing
  else if sd.hours.instructional_hours ≤ 0 then .error .instructionalMissing
  else .ok ()

/-- `schema.py` `CourseType`: a two-valued string enum. -/
inductive CourseType where
  | mandatory : CourseType
  | selective : CourseType
deriving DecidableEq, Repr

/-- `CourseType(s)` conversion; raises `ValueError` on unrecognized input. -/
def CourseType.ofString (s : String) : Except Err CourseType :=
  if s = "mandatory" then .ok .mandatory
  else if s = "selective" then .ok .selective
  else .error (.valueError s)

/-- `schema.py` `CourseData` (the typed dataclass produced by `from_dict`). -/
structure CourseData where
  code : String
  name : String
  type : CourseType
  semesters : List SemesterData
  prerequisites : List String
deriving DecidableEq, Repr

/-- The semester-uniqueness loop of `CourseData.validate` (lines 106-111):
a running set of seen semester numbers, raising on the first duplicate,
and each semester's own `validate()` called in sequence order. -/
def validateSemList (seen : List Int) : List SemesterData → Except Err Unit
  | [] => .ok ()
  | sd :: rest =>
    if sd.semester ∈ seen then .error (.duplicateSemester sd.semester)
    else
      match sd.validate with
      | .error e => .error e
      | .ok _ => validateSemList (sd.semester :: seen) rest

/-- `schema.py` `CourseData.validate`, lines 94-111.  The source's
`isinstance(self.type, CourseType)` check cannot fail in the typed model
(every `CourseType` value is one of the two recognized values). -/
def CourseData.validate (c : CourseData) : Except Err Unit :=
  if c.code = "" ∨ c.name = "" then .error .codeNameRequired
  else if c.semesters = [] then .error .noSemesters
  else validateSemList [] c.semesters

section BasicTheorems

/-- C4: for every SemesterData, validate() succeeds iff
`hours.total_hours() == credits * 30` and `hours.individual > 0` and
`hours.instructional_hours() > 0` (positivity of credits is implied);
on failure the four checks run in the fixed source order and the first
failing check's error is raised. -/
theorem c4_semester_validate_iff :
    (∀ sd : SemesterData, sd.validate = .ok () ↔
      (sd.hours.total_hours = sd.credits * 30 ∧ 0 < sd.hours.individual ∧
        0 < sd.hours.instructional_hours)) ∧
    (∀ sd : SemesterData, sd.credits ≤ 0 →
      sd.validate = .error .creditsNotPositive) ∧
    (∀ sd : SemesterData, 0 < sd.credits →
      sd.hours.total_hours ≠ sd.credits * 30 →
      sd.validate = .error (.totalHoursMismatch sd.hours.total_hours (sd.credits * 30))) ∧
    (∀ sd : SemesterData, 0 < sd.credits →
      sd.hours.total_hours = sd.credits * 30 → sd.hours.individual ≤ 0 →
      sd.validate = .error .individualMissing) ∧
    (∀ sd : SemesterData, 0 < sd.credits →
      sd.hours.total_hours = sd.credits * 30 → 0 < sd.hours.individual →
      sd.hours.instructional_hours ≤ 0 →
      sd.validate = .error .instructionalMissing) := by
  have htot : ∀ sd : SemesterData, sd.hours.total_hours =
      sd.hours.instructional_hours + sd.hours.individual := by
    intro sd
    unfold HourDistribution.total_hours HourDistribution.instructional_hours
    ring
  refine ⟨?_, ?_, ?_, ?_, ?_⟩
  · intro sd
    have h := htot sd
    unfold SemesterData.validate
    split_ifs with h1 h2 h3 h4 <;> (simp_all; try omega)
  · intro sd h
    unfold SemesterData.validate
    rw [if_pos h]
  · intro sd h1 h2
    unfold SemesterData.validate
    rw [if_neg (by omega), if_pos h2]
  · intro sd h1 h2 h3
    unfold SemesterData.validate
    rw [if_neg (by omega), if_neg (by simp [h2]), if_pos h3]
  · intro sd h1 h2 h3 h4
    unfold SemesterData.validate
    rw [if_neg (by omega), if_neg (by simp [h2]), if_neg (by omega), if_pos h4]

/-- Witness for C4 at a concrete offering: 1 credit, 30 hours split
15 lecture / 15 individual validates. -/
theorem c4_semester_validate_iff_witness :
    SemesterData.validate ⟨1, 1, ⟨15, 0, 0, 0, 15⟩⟩ = .ok () :=
  (c4_semester_validate_iff.1 ⟨1, 1, ⟨15, 0, 0, 0, 15⟩⟩).2 (by decide)

end BasicTheorems

/-- If the semester loop of `CourseData.validate` accepts a list, then the
semester numbers in the list are distinct and disjoint from the seen set. -/
theorem validateSemList_ok_nodup (l : List SemesterData) :
    ∀ seen : List Int, validateSemList seen l = .ok () →
      (l.map (fun s => s.semester)).Nodup ∧
        ∀ n ∈ l.map (fun s => s.semester), n ∉ seen := by
  induction l with
  | nil => intro seen _; exact ⟨List.nodup_nil, by simp⟩
  | cons sd rest ih =>
    intro seen h
    unfold validateSemList at h
    split_ifs at h with hmem
    revert h
    match hval : sd.validate with
    | .error e => intro h; exact absurd h (by simp)
    | .ok _ =>
      intro h
      obtain ⟨hnodup, hdisj⟩ := ih (sd.semester :: seen) h
      refine ⟨List.nodup_cons.mpr ⟨?_, hnodup⟩, ?_⟩
      · intro hin
        exact hdisj sd.semester hin (List.mem_cons_self _ _)
      · intro n hn
        rcases List.mem_cons.mp hn with h1 | h2
        · rw [h1]; exact hmem
        · intro hseen
          exact hdisj n h2 (List.mem_cons_of_mem _ hseen)

/-- Concrete course with two `SemesterData` sharing semester number 2. -/
def dupSemCourse : CourseData :=
  { code := "X1", name := "Course X1", type := .mandatory,
    semesters := [⟨2, 1, ⟨15, 0, 0, 0, 15⟩⟩, ⟨2, 2, ⟨30, 0, 0, 0, 30⟩⟩],
    prerequisites := [] }

/-- C8: `CourseData.validate` fails for every record whose semesters repeat
a semester number (detected by a running seen-set in sequence order, the
first duplicate raising); in particular a record with two entries both
having semester 2 fails with that duplicate reported. -/
theorem c8_duplicate_semester_rejected :
    (∀ c : CourseData, ¬ (c.semesters.map (fun s => s.semester)).Nodup →
      c.validate ≠ .ok ()) ∧
    dupSemCourse.validate = .error (.duplicateSemester 2) := by
  constructor
  · intro c hdup hok
    unfold CourseData.validate at hok
    split_ifs at hok
    exact hdup (validateSemList_ok_nodup c.semesters [] hok).1
  · rfl

/-- Witness for C8 at the concrete duplicate-semester record. -/
theorem c8_duplicate_semester_rejected_witness :
    dupSemCourse.validate ≠ .ok () :=
  c8_duplicate_semester_rejected.1 dupSemCourse (by decide)

/-- A Python `dict` holding one course, with the keys that the source ever
stores or reads (`schema.py` uses `code`/`name`/`type`/`semesters`/
`prerequisites`; `excel.py`'s `read_excel` stores `course_code`/
`course_name`/`credits`/`semester`).  `none` models an absent key.
Semester dicts always come from `SemesterData.to_dict()` and are complete,
so they are modelled by `SemesterData` itself. -/
structure CourseDict where
  code : Option String := none
  name : Option String := none
  type : Option String := none
  semesters : Option (List SemesterData) := none
  prerequisites : Option (List String) := none
  course_code : Option String := none
  course_name : Option String := none
  credits : Option Int := none
  semester : Option Int := none
deriving DecidableEq, Repr

/-- A curriculum mapping: Python dict of course code to course dict,
modelled as an insertion-ordered association list with unique keys. -/
abbrev Curriculum := List (String × CourseDict)

/-- `data[k]` access: the value for a present key, `KeyError` otherwise. -/
def getKey {α : Type} (o : Option α) (k : String) : Except Err α :=
  match o with
  | some v => .ok v
  | none => .error (.keyError k)

/-- `schema.py` `CourseData.from_dict`, lines 122-130: reads `code`,
`name`, `type`, `semesters` (raising `KeyError` when absent, `ValueError`
on an unrecognized type string) and defaults `prerequisites` to `[]`. -/
def CourseData.from_dict (cd : CourseDict) : Except Err CourseData := do
  let code ← getKey cd.code "code"
  let name ← getKey cd.name "name"
  let tyStr ← getKey cd.type "type"
  let ty ← CourseType.ofString tyStr
  let sems ← getKey cd.semesters "semesters"
  pure { code := code, name := name, type := ty, semesters := sems,
         prerequisites := cd.prerequisites.getD [] }

/-- `schema.py` `CurriculumSchema.validate_course`, lines 135-144:
`from_dict` failures (`KeyError`/`ValueError`) are wrapped as
"Invalid course data structure", validation failures as
"Course validation failed". -/
def validate_course (cd : CourseDict) : Except Err Unit :=
  match CourseData.from_dict cd with
  | .error e => .error (.invalidStructure e)
  | .ok course =>
    match course.validate with
    | .error e => .error (.courseValidationFailed e)
    | .ok _ => .ok ()

/-- First-occurrence deduplication; models building a Python `set` from a
list, keeping insertion order for inspection. -/
def dedupAux (seen : List String) : List String → List String
  | [] => []
  | x :: xs => if x ∈ seen then dedupAux seen xs else x :: dedupAux (x :: seen) xs

/-- `set(prerequisites) - all_codes` of `validate_curriculum` line 164:
the distinct prerequisite codes of a course that are not keys of the
mapping (Python's unordered set is modelled in first-occurrence order). -/
def invalidPrereqsOf (allCodes : List String) (cd : CourseDict) : List String :=
  dedupAux [] ((cd.prerequisites.getD []).filter (fun p => !(allCodes.contains p)))

/-- One iteration of the per-course loop of `validate_curriculum`
(lines 153-158): key/declared-code match, then `validate_course`. -/
def perCourseCheck (k : String) (cd : CourseDict) : Except Err Unit :=
  if cd.code ≠ some k then .error (.codeMismatch k cd.code)
  else validate_course cd

/-- The per-course loop of `validate_curriculum`, short-circuiting on the
first failing course in mapping order. -/
def coursesCheck : Curriculum → Except Err Unit
  | [] => .ok ()
  | (k, cd) :: rest =>
    match perCourseCheck k cd with
    | .error e => .error e
    | .ok _ => coursesCheck rest

/-- The prerequisite-existence loop of `validate_curriculum`
(lines 160-168), run over the values with the full key set. -/
def prereqCheck (allCodes : List String) : Curriculum → Except Err Unit
  | [] => .ok ()
  | (_, cd) :: rest =>
    if invalidPrereqsOf allCodes cd = [] then prereqCheck allCodes rest
    else
      match cd.code with
      | some c => .error (.invalidPrereqs c (invalidPrereqsOf allCodes cd))
      | none => .error (.keyError "code")

/-- `schema.py` `CurriculumSchema.validate_curriculum`, lines 147-168.
The `isinstance(curriculum_data, dict)` guard cannot fail in the typed
model.  All per-course checks run before the cross-reference check. -/
def validate_curriculum (data : Curriculum) : Except Err Unit :=
  match coursesCheck data with
  | .error e => .error e
  | .ok _ => prereqCheck (data.map Prod.fst) data

/-- Recognizer for the dangling-prerequisite error of
`validate_curriculum`. -/
def Err.isInvalidPrereqs : Err → Bool
  | .invalidPrereqs _ _ => true
  | _ => false

/-- The per-course loop of `validate_curriculum` can only raise a code
mismatch, a structure error, or a wrapped course-validation error —
never a dangling-prerequisite error. -/
theorem perCourseCheck_error_kind (k : String) (cd : CourseDict) (e : Err) :
    perCourseCheck k cd = .error e → e.isInvalidPrereqs = false := by
  intro he
  unfold perCourseCheck validate_course at he
  split_ifs at he with h
  · cases he
    rfl
  · cases hfd : CourseData.from_dict cd with
    | error e2 =>
      simp only [hfd] at he
      cases he
      rfl
    | ok course =>
      simp only [hfd] at he
      cases hv : course.validate with
      | error e2 =>
        simp only [hv] at he
        cases he
        rfl
      | ok u =>
        simp only [hv] at he
        cases he

/-- A failure of the per-course loop is never a dangling-prerequisite
error. -/
theorem coursesCheck_error_kind (data : Curriculum) (e : Err) :
    coursesCheck data = .error e → e.isInvalidPrereqs = false := by
  induction data with
  | nil => intro h; cases h
  | cons kv rest ih =>
    obtain ⟨k, cd⟩ := kv
    intro h
    unfold coursesCheck at h
    cases hpc : perCourseCheck k cd with
    | error e2 =>
      rw [hpc] at h
      cases h
      exact perCourseCheck_error_kind k cd _ hpc
    | ok u =>
      rw [hpc] at h
      exact ih h

/-- When the per-course loop accepts a mapping, every entry's declared
code equals its key. -/
theorem coursesCheck_ok_code (data : Curriculum) :
    coursesCheck data = .ok () →
      ∀ kv ∈ data, kv.2.code = some kv.1 := by
  induction data with
  | nil => intro _ kv hkv; exact absurd hkv (List.not_mem_nil kv)
  | cons hd rest ih =>
    obtain ⟨k, cd⟩ := hd
    intro h
    unfold coursesCheck at h
    cases hpc : perCourseCheck k cd with
    | error e2 =>
      rw [hpc] at h
      cases h
    | ok u =>
      rw [hpc] at h
      intro kv hkv
      rcases List.mem_cons.mp hkv with h1 | h2
      · subst h1
        unfold perCourseCheck at hpc
        split_ifs at hpc with hcode
        simpa using hcode
      · exact ih h kv h2

/-- The cross-reference loop of `validate_curriculum` reports the first
course (in mapping order) with unknown prerequisite codes, naming that
course's declared code and the full set of unknown codes it references. -/
theorem prereqCheck_first_dirty (allCodes : List String) (c : String) :
    ∀ (pre : Curriculum) (k : String) (cd : CourseDict) (rest : Curriculum),
      (∀ kv ∈ pre, invalidPrereqsOf allCodes kv.2 = []) →
      invalidPrereqsOf allCodes cd ≠ [] →
      cd.code = some c →
      prereqCheck allCodes (pre ++ (k, cd) :: rest) =
        .error (.invalidPrereqs c (invalidPrereqsOf allCodes cd)) := by
  intro pre
  induction pre with
  | nil =>
    intro k cd rest _ hdirty hcode
    rw [List.nil_append]
    unfold prereqCheck
    rw [if_neg hdirty, hcode]
  | cons hd tl ih =>
    intro k cd rest hclean hdirty hcode
    obtain ⟨k2, cd2⟩ := hd
    have hcl : invalidPrereqsOf allCodes cd2 = [] :=
      hclean (k2, cd2) (List.mem_cons_self _ _)
    show prereqCheck allCodes ((k2, cd2) :: (tl ++ (k, cd) :: rest)) = _
    unfold prereqCheck
    rw [if_pos hcl]
    exact ih k cd rest
      (fun kv hkv => hclean kv (List.mem_cons_of_mem _ hkv)) hdirty hcode

/-- C5: `validate_curriculum` fails on a dangling prerequisite, naming the
owning course code and the full set of unknown codes it references, and
this cross-reference check runs only after every course passes its own
per-course validation: a per-course failure is reported instead and is
never a dangling-prerequisite error. -/
theorem c5_dangling_prerequisites_after_per_course :
    (∀ (data : Curriculum) (e : Err), coursesCheck data = .error e →
      validate_curriculum data = .error e ∧ e.isInvalidPrereqs = false) ∧
    (∀ (pre : Curriculum) (k : String) (cd : CourseDict) (rest : Curriculum),
      coursesCheck (pre ++ (k, cd) :: rest) = .ok () →
      (∀ kv ∈ pre,
        invalidPrereqsOf ((pre ++ (k, cd) :: rest).map Prod.fst) kv.2 = []) →
      invalidPrereqsOf ((pre ++ (k, cd) :: rest).map Prod.fst) cd ≠ [] →
      validate_curriculum (pre ++ (k, cd) :: rest) =
        .error (.invalidPrereqs k
          (invalidPrereqsOf ((pre ++ (k, cd) :: rest).map Prod.fst) cd))) := by
  constructor
  · intro data e h
    refine ⟨?_, coursesCheck_error_kind data e h⟩
    unfold validate_curriculum
    rw [h]
  · intro pre k cd rest hok hclean hdirty
    have hcode : cd.code = some k := by
      have := coursesCheck_ok_code _ hok (k, cd)
        (List.mem_append.mpr (Or.inr (List.mem_cons_self _ _)))
      simpa using this
    unfold validate_curriculum
    rw [hok]
    exact prereqCheck_first_dirty _ k pre k cd rest hclean hdirty hcode

/-- Course dict for code A that is individually valid but references an
absent prerequisite code B. -/
def cdDanglingA : CourseDict :=
  { code := some "A", name := some "Course A", type := some "mandatory",
    semesters := some [⟨1, 1, ⟨15, 0, 0, 0, 15⟩⟩],
    prerequisites := some ["B"] }

/-- Witness for C5: the curriculum with A requiring an absent B fails,
reporting B as the unknown code for course A. -/
theorem c5_dangling_prerequisites_after_per_course_witness :
    validate_curriculum [("A", cdDanglingA)] =
      .error (.invalidPrereqs "A" ["B"]) := by
  have h := c5_dangling_prerequisites_after_per_course.2 [] "A" cdDanglingA []
    rfl (fun kv hkv => absurd hkv (List.not_mem_nil kv)) (by decide)
  exact h

/-- Python dict assignment `data[k] = v`: replace in place when the key is
present, append otherwise. -/
def dictInsert : Curriculum → String → CourseDict → Curriculum
  | [], k, v => [(k, v)]
  | (k2, v2) :: rest, k, v =>
    if k2 = k then (k, v) :: rest
    else (k2, v2) :: dictInsert rest k v

/-- Python dict deletion `del data[k]` (keys are unique in a dict, so
removing the first matching entry suffices). -/
def dictRemove : Curriculum → String → Curriculum
  | [], _ => []
  | (k2, v2) :: rest, k =>
    if k2 = k then rest
    else (k2, v2) :: dictRemove rest k

/-- `schema.py` `CurriculumManager.add_course`, lines 240-246.  The pair
carries the Python method's outcome and the state of `self.data` when the
method returns or raises. -/
def add_course (data : Curriculum) (cd : CourseDict) :
    Except Err Unit × Curriculum :=
  match validate_course cd with
  | .error e => (.error e, data)
  | .ok _ =>
    match cd.code with
    | none => (.error (.keyError "code"), data)
    | some code =>
      if code ∈ data.map Prod.fst then (.error (.alreadyExists code), data)
      else (.ok (), dictInsert data code cd)

/-- `schema.py` `CurriculumManager.update_course`, lines 248-254: the code
is read first, then existence is checked, then the record is validated,
then it is replaced in place. -/
def update_course (data : Curriculum) (cd : CourseDict) :
    Except Err Unit × Curriculum :=
  match cd.code with
  | none => (.error (.keyError "code"), data)
  | some code =>
    if code ∈ data.map Prod.fst then
      match validate_course cd with
      | .error e => (.error e, data)
      | .ok _ => (.ok (), dictInsert data code cd)
    else (.error (.doesNotExist code), data)

/-- The conflict scan of `remove_course` (lines 262-266): walk all records
(including the course being removed) in mapping order and raise on the
first whose prerequisites contain the code. -/
def scanConflict : Curriculum → String → Option Err
  | [], _ => none
  | (_, cd) :: rest, code =>
    if code ∈ cd.prerequisites.getD [] then
      some (match cd.code with
            | some c => .isPrereqFor code c
            | none => .keyError "code")
    else scanConflict rest code

/-- `schema.py` `CurriculumManager.remove_course`, lines 256-268. -/
def remove_course (data : Curriculum) (code : String) :
    Except Err Unit × Curriculum :=
  if code ∈ data.map Prod.fst then
    match scanConflict data code with
    | some e => (.error e, data)
    | none => (.ok (), dictRemove data code)
  else (.error (.doesNotExist code), data)

/-- `remove_course`'s "first conflicting course", phrased with `find?`:
the first record in mapping order listing the code as a prerequisite. -/
def findConflict (data : Curriculum) (code : String) : Option CourseDict :=
  (data.find? (fun kv => decide (code ∈ kv.2.prerequisites.getD []))).map
    (fun kv => kv.2)

/-- §3 invariant: every key of the mapping equals its record's declared
code. -/
def keyCodeInvB (data : Curriculum) : Bool :=
  data.all (fun kv => decide (kv.2.code = some kv.1))

/-- §3 invariant: every prerequisite code referenced by any record exists
as a key of the mapping. -/
def noDanglingB (data : Curriculum) : Bool :=
  data.all (fun kv =>
    (kv.2.prerequisites.getD []).all (fun p => decide (p ∈ data.map Prod.fst)))

/-- C10: every CurriculumManager mutation is atomic on failure — when
`add_course`, `update_course` or `remove_course` raises, the underlying
mapping is exactly the state before the call (all checks precede the
single mutating statement). -/
theorem c10_mutations_atomic_on_failure :
    (∀ (data : Curriculum) (cd : CourseDict) (e : Err),
      (add_course data cd).1 = .error e → (add_course data cd).2 = data) ∧
    (∀ (data : Curriculum) (cd : CourseDict) (e : Err),
      (update_course data cd).1 = .error e → (update_course data cd).2 = data) ∧
    (∀ (data : Curriculum) (code : String) (e : Err),
      (remove_course data code).1 = .error e → (remove_course data code).2 = data) := by
  refine ⟨?_, ?_, ?_⟩
  · intro data cd e
    unfold add_course
    cases hv : validate_course cd with
    | error e2 => simp
    | ok u =>
      cases hc : cd.code with
      | none => simp
      | some code =>
        by_cases hmem : code ∈ data.map Prod.fst
        · simp [hmem]
        · simp [hmem]
  · intro data cd e
    unfold update_course
    cases hc : cd.code with
    | none => simp
    | some code =>
      by_cases hmem : code ∈ data.map Prod.fst
      · cases hv : validate_course cd with
        | error e2 => simp [hmem, hv]
        | ok u => simp [hmem, hv]
      · simp [hmem]
  · intro data code e
    unfold remove_course
    by_cases hmem : code ∈ data.map Prod.fst
    · cases hsc : scanConflict data code with
      | some e2 => simp [hmem, hsc]
      | none => simp [hmem, hsc]
    · simp [hmem]

/-- Witness for C10: removing an absent code from the empty curriculum
raises and leaves the mapping unchanged. -/
theorem c10_mutations_atomic_on_failure_witness :
    (remove_course [] "Z").2 = [] :=
  c10_mutations_atomic_on_failure.2.2 [] "Z" (.doesNotExist "Z") rfl

/-- When no record lists the code as a prerequisite, the conflict scan of
`remove_course` finds nothing. -/
theorem scanConflict_eq_none (data : Curriculum) (code : String) :
    findConflict data code = none → scanConflict data code = none := by
  induction data with
  | nil => intro _; rfl
  | cons hd rest ih =>
    obtain ⟨k, cd⟩ := hd
    intro h
    unfold findConflict at h
    rw [List.find?_cons] at h
    unfold scanConflict
    by_cases hmem : code ∈ cd.prerequisites.getD []
    · simp [hmem] at h
    · simp only [hmem, decide_False] at h
      simp only [hmem, if_false]
      exact ih h

/-- The conflict scan of `remove_course` raises about exactly the first
record in mapping order whose prerequisites contain the code. -/
theorem scanConflict_eq_some (data : Curriculum) (code c : String)
    (cd : CourseDict) :
    findConflict data code = some cd → cd.code = some c →
    scanConflict data code = some (.isPrereqFor code c) := by
  induction data with
  | nil => intro h; cases h
  | cons hd rest ih =>
    obtain ⟨k, cd2⟩ := hd
    intro h hcode
    unfold findConflict at h
    rw [List.find?_cons] at h
    unfold scanConflict
    by_cases hmem : code ∈ cd2.prerequisites.getD []
    · simp [hmem] at h
      subst h
      simp [hmem, hcode]
    · simp only [hmem, decide_False] at h
      simp only [hmem, if_false]
      exact ih h hcode

/-- Course dict A with no prerequisites (individually valid). -/
def cdPlainA : CourseDict :=
  { code := some "A", name := some "Course A", type := some "mandatory",
    semesters := some [⟨1, 1, ⟨15, 0, 0, 0, 15⟩⟩],
    prerequisites := some [] }

/-- Course dict B listing A as its prerequisite (individually valid). -/
def cdBneedsA : CourseDict :=
  { code := some "B", name := some "Course B", type := some "mandatory",
    semesters := some [⟨2, 1, ⟨15, 0, 0, 0, 15⟩⟩],
    prerequisites := some ["A"] }

/-- The two-course curriculum `{A: prereqs=[]}, {B: prereqs=[A]}`. -/
def abCurr : Curriculum := [("A", cdPlainA), ("B", cdBneedsA)]

/-- Course dict A listing itself as its prerequisite (individually
valid, and a valid curriculum on its own since cycles are tolerated). -/
def cdSelfLoopA : CourseDict :=
  { code := some "A", name := some "Course A", type := some "mandatory",
    semesters := some [⟨1, 1, ⟨15, 0, 0, 0, 15⟩⟩],
    prerequisites := some ["A"] }

/-- Counterexample for C6: in the valid one-course curriculum
`{A: prereqs=[A]}` no *other* record lists A, yet `remove_course("A")`
fails (naming A itself as the blocker) instead of deleting the key: the
source scans all records including the course being removed. -/
theorem c6_counterexample_self_prerequisite :
    validate_curriculum [("A", cdSelfLoopA)] = .ok () ∧
    List.all [("A", cdSelfLoopA)] (fun kv => kv.1 == "A") = true ∧
    remove_course [("A", cdSelfLoopA)] "A" =
      (.error (.isPrereqFor "A" "A"), [("A", cdSelfLoopA)]) :=
  ⟨rfl, rfl, rfl⟩

/-- C6 (amended): `remove_course(code)` fails when the code is absent;
fails when any record — including the course itself — lists the code
among its prerequisites, reporting the first such record in mapping
order; otherwise deletes the key.  On `{A: prereqs=[]}, {B: prereqs=[A]}`
removing A fails naming B, while removing B and then A succeeds. -/
theorem c6_amended_remove_course :
    (∀ (data : Curriculum) (code : String), code ∉ data.map Prod.fst →
      remove_course data code = (.error (.doesNotExist code), data)) ∧
    (∀ (data : Curriculum) (code : String), code ∈ data.map Prod.fst →
      findConflict data code = none →
      remove_course data code = (.ok (), dictRemove data code)) ∧
    (∀ (data : Curriculum) (code c : String) (cd : CourseDict),
      code ∈ data.map Prod.fst →
      findConflict data code = some cd → cd.code = some c →
      remove_course data code = (.error (.isPrereqFor code c), data)) ∧
    remove_course abCurr "A" = (.error (.isPrereqFor "A" "B"), abCurr) ∧
    remove_course abCurr "B" = (.ok (), [("A", cdPlainA)]) ∧
    remove_course (remove_course abCurr "B").2 "A" = (.ok (), []) := by
  refine ⟨?_, ?_, ?_, rfl, rfl, rfl⟩
  · intro data code hmem
    unfold remove_course
    rw [if_neg hmem]
  · intro data code hmem hfc
    unfold remove_course
    rw [if_pos hmem, scanConflict_eq_none data code hfc]
  · intro data code c cd hmem hfc hcode
    unfold remove_course
    rw [if_pos hmem, scanConflict_eq_some data code c cd hfc hcode]

/-- Witness for C6 (amended): removing B from the two-course curriculum
succeeds and deletes the key. -/
theorem c6_amended_remove_course_witness :
    remove_course abCurr "B" = (.ok (), dictRemove abCurr "B") :=
  c6_amended_remove_course.2.1 abCurr "B" (by decide) rfl

/-- Membership after a Python dict assignment: the new pair or an old one. -/
theorem mem_dictInsert (data : Curriculum) (k : String) (v : CourseDict) :
    ∀ kv ∈ dictInsert data k v, kv = (k, v) ∨ kv ∈ data := by
  induction data with
  | nil =>
    intro kv hkv
    unfold dictInsert at hkv
    rcases List.mem_singleton.mp hkv with h
    exact Or.inl h
  | cons hd rest ih =>
    obtain ⟨k2, v2⟩ := hd
    intro kv hkv
    unfold dictInsert at hkv
    split_ifs at hkv with heq
    · rcases List.mem_cons.mp hkv with h | h
      · exact Or.inl h
      · exact Or.inr (List.mem_cons_of_mem _ h)
    · rcases List.mem_cons.mp hkv with h | h
      · exact Or.inr (List.mem_cons.mpr (Or.inl h))
      · rcases ih kv h with h2 | h2
        · exact Or.inl h2
        · exact Or.inr (List.mem_cons_of_mem _ h2)

/-- Membership after a Python dict deletion is membership before. -/
theorem mem_dictRemove (data : Curriculum) (k : String) :
    ∀ kv ∈ dictRemove data k, kv ∈ data := by
  induction data with
  | nil => intro kv hkv; exact absurd hkv (List.not_mem_nil kv)
  | cons hd rest ih =>
    obtain ⟨k2, v2⟩ := hd
    intro kv hkv
    unfold dictRemove at hkv
    split_ifs at hkv with heq
    · exact List.mem_cons_of_mem _ hkv
    · rcases List.mem_cons.mp hkv with h | h
      · exact List.mem_cons.mpr (Or.inl h)
      · exact List.mem_cons_of_mem _ (ih kv h)

/-- A key different from the deleted one survives a dict deletion. -/
theorem mem_keys_dictRemove (data : Curriculum) (k p : String) :
    p ≠ k → p ∈ data.map Prod.fst → p ∈ (dictRemove data k).map Prod.fst := by
  induction data with
  | nil => intro _ h; exact absurd h (by simp)
  | cons hd rest ih =>
    obtain ⟨k2, v2⟩ := hd
    intro hne hp
    unfold dictRemove
    split_ifs with heq
    · subst heq
      rcases List.mem_cons.mp hp with h | h
      · exact absurd h hne
      · exact h
    · rcases List.mem_cons.mp hp with h | h
      · exact List.mem_cons.mpr (Or.inl h)
      · exact List.mem_cons_of_mem _ (ih hne h)

/-- When the conflict scan of `remove_course` finds nothing, no record in
the mapping lists the code among its prerequisites. -/
theorem scanConflict_none_not_listed (data : Curriculum) (code : String) :
    scanConflict data code = none →
      ∀ kv ∈ data, code ∉ kv.2.prerequisites.getD [] := by
  induction data with
  | nil => intro _ kv hkv; exact absurd hkv (List.not_mem_nil kv)
  | cons hd rest ih =>
    obtain ⟨k, cd⟩ := hd
    intro h kv hkv
    unfold scanConflict at h
    split_ifs at h with hmem
    rcases List.mem_cons.mp hkv with h2 | h2
    · subst h2
      exact hmem
    · exact ih h kv h2

/-- Translation of `keyCodeInvB` to a membership statement. -/
theorem keyCodeInvB_iff (data : Curriculum) :
    keyCodeInvB data = true ↔ ∀ kv ∈ data, kv.2.code = some kv.1 := by
  unfold keyCodeInvB
  rw [List.all_eq_true]
  simp

/-- Translation of `noDanglingB` to a membership statement. -/
theorem noDanglingB_iff (data : Curriculum) :
    noDanglingB data = true ↔
      ∀ kv ∈ data, ∀ p ∈ kv.2.prerequisites.getD [],
        p ∈ data.map Prod.fst := by
  unfold noDanglingB
  rw [List.all_eq_true]
  constructor
  · intro h kv hkv p hp
    have := List.all_eq_true.mp (h kv hkv) p hp
    simpa using this
  · intro h kv hkv
    rw [List.all_eq_true]
    intro p hp
    simpa using h kv hkv p hp

/-- Individually valid course dict whose prerequisite list references an
absent code GHOST (single-record validation does not check prerequisite
existence). -/
def cdGhost : CourseDict :=
  { code := some "CS1", name := some "Intro", type := some "mandatory",
    semesters := some [⟨1, 1, ⟨15, 0, 0, 0, 15⟩⟩],
    prerequisites := some ["GHOST"] }

/-- Counterexample for C7: on the empty curriculum (which satisfies both
§3 invariants and validates), `add_course` succeeds with a record whose
prerequisite GHOST is not a key, leaving a dangling prerequisite. -/
theorem c7_counterexample_add_dangling :
    validate_curriculum [] = .ok () ∧
    keyCodeInvB [] = true ∧
    noDanglingB [] = true ∧
    add_course [] cdGhost = (.ok (), [("CS1", cdGhost)]) ∧
    noDanglingB [("CS1", cdGhost)] = false :=
  ⟨rfl, rfl, rfl, rfl, rfl⟩

/-- C7 (amended): every successful mutation preserves the key-equals-code
invariant, and `remove_course` also preserves the no-dangling-prerequisite
invariant; `add_course`/`update_course` may introduce dangling
prerequisite codes, since single-record validation does not check
prerequisite existence. -/
theorem c7_amended_mutation_invariants :
    (∀ (data data2 : Curriculum) (cd : CourseDict),
      add_course data cd = (.ok (), data2) →
      keyCodeInvB data = true → keyCodeInvB data2 = true) ∧
    (∀ (data data2 : Curriculum) (cd : CourseDict),
      update_course data cd = (.ok (), data2) →
      keyCodeInvB data = true → keyCodeInvB data2 = true) ∧
    (∀ (data data2 : Curriculum) (code : String),
      remove_course data code = (.ok (), data2) →
      keyCodeInvB data = true → keyCodeInvB data2 = true) ∧
    (∀ (data data2 : Curriculum) (code : String),
      remove_course data code = (.ok (), data2) →
      noDanglingB data = true → noDanglingB data2 = true) := by
  have hins : ∀ (data data2 : Curriculum) (code : String) (cd : CourseDict),
      cd.code = some code → dictInsert data code cd = data2 →
      keyCodeInvB data = true → keyCodeInvB data2 = true := by
    intro data data2 code cd hc hd hinv
    subst hd
    rw [keyCodeInvB_iff] at hinv ⊢
    intro kv hkv
    rcases mem_dictInsert data code cd kv hkv with h | h
    · subst h
      exact hc
    · exact hinv kv h
  refine ⟨?_, ?_, ?_, ?_⟩
  · intro data data2 cd h hinv
    unfold add_course at h
    cases hv : validate_course cd with
    | error e2 => simp [hv] at h
    | ok u =>
      rw [hv] at h
      cases hc : cd.code with
      | none => simp [hc] at h
      | some code =>
        rw [hc] at h
        by_cases hmem : code ∈ data.map Prod.fst
        · simp [hmem] at h
        · simp only [hmem, if_false] at h
          simp only [Prod.mk.injEq, true_and] at h
          exact hins data data2 code cd hc h hinv
  · intro data data2 cd h hinv
    unfold update_course at h
    cases hc : cd.code with
    | none => simp [hc] at h
    | some code =>
      rw [hc] at h
      by_cases hmem : code ∈ data.map Prod.fst
      · simp only [hmem, if_true] at h
        cases hv : validate_course cd with
        | error e2 => simp [hv] at h
        | ok u =>
          rw [hv] at h
          simp only [Prod.mk.injEq, true_and] at h
          exact hins data data2 code cd hc h hinv
      · simp [hmem] at h
  · intro data data2 code h hinv
    unfold remove_course at h
    by_cases hmem : code ∈ data.map Prod.fst
    · rw [if_pos hmem] at h
      cases hsc : scanConflict data code with
      | some e2 => simp [hsc] at h
      | none =>
        rw [hsc] at h
        simp only [Prod.mk.injEq, true_and] at h
        subst h
        rw [keyCodeInvB_iff] at hinv ⊢
        intro kv hkv
        exact hinv kv (mem_dictRemove data code kv hkv)
    · simp [hmem] at h
  · intro data data2 code h hinv
    unfold remove_course at h
    by_cases hmem : code ∈ data.map Prod.fst
    · rw [if_pos hmem] at h
      cases hsc : scanConflict data code with
      | some e2 => simp [hsc] at h
      | none =>
        rw [hsc] at h
        simp only [Prod.mk.injEq, true_and] at h
        subst h
        rw [noDanglingB_iff] at hinv ⊢
        intro kv hkv p hp
        have hkv2 : kv ∈ data := mem_dictRemove data code kv hkv
        have hnotcode : code ∉ kv.2.prerequisites.getD [] :=
          scanConflict_none_not_listed data code hsc kv hkv2
        have hpne : p ≠ code := by
          intro hpc
          subst hpc
          exact hnotcode hp
        exact mem_keys_dictRemove data code p hpne (hinv kv hkv2 p hp)
    · simp [hmem] at h

/-- Witness for C7 (amended): removing the only course (no one references
it) keeps the no-dangling invariant. -/
theorem c7_amended_mutation_invariants_witness :
    noDanglingB [] = true :=
  c7_amended_mutation_invariants.2.2.2 [("A", cdPlainA)] [] "A" rfl rfl

/-- `self.data[code]` lookup for the tree builder. -/
def dictGet (data : Curriculum) (k : String) : Option CourseDict :=
  (data.find? (fun kv => kv.1 == k)).map (fun kv => kv.2)

/-- A successful dict lookup means the key is present. -/
theorem dictGet_mem (data : Curriculum) (k : String) (v : CourseDict) :
    dictGet data k = some v → k ∈ data.map Prod.fst := by
  intro h
  unfold dictGet at h
  cases hf : data.find? (fun kv => kv.1 == k) with
  | none => rw [hf] at h; cases h
  | some kv =>
    have hmem := List.mem_of_find?_eq_some hf
    have heq : kv.1 = k := by
      have := List.find?_some hf
      simpa using this
    rw [List.mem_map]
    exact ⟨kv, hmem, heq⟩

/-- Filtering with a stronger predicate keeps at most as many elements. -/
theorem length_filter_mono {α : Type} (p q : α → Bool) (l : List α)
    (himp : ∀ x, q x = true → p x = true) :
    (l.filter q).length ≤ (l.filter p).length := by
  induction l with
  | nil => simp
  | cons hd tl ih =>
    rw [List.filter_cons, List.filter_cons]
    cases hq : q hd
    · cases hp : p hd
      · simpa using ih
      · simp only [if_true, if_false, List.length_cons]
        exact Nat.le_trans ih (Nat.le_succ _)
    · rw [himp hd hq]
      simpa using ih

/-- Filtering with a strictly stronger predicate (witnessed by a member
satisfying only the weaker one) keeps strictly fewer elements. -/
theorem length_filter_strict {α : Type} (p q : α → Bool) (l : List α)
    (himp : ∀ x, q x = true → p x = true) (a : α) (ha : a ∈ l)
    (hpa : p a = true) (hqa : q a = false) :
    (l.filter q).length < (l.filter p).length := by
  induction l with
  | nil => cases ha
  | cons hd tl ih =>
    rw [List.filter_cons, List.filter_cons]
    rcases List.mem_cons.mp ha with h | h
    · subst h
      rw [hpa, hqa]
      simp only [if_true, if_false, List.length_cons]
      exact Nat.lt_succ_of_le (length_filter_mono p q tl himp)
    · cases hq : q hd
      · cases hp : p hd
        · simpa using ih h
        · simp only [if_true, if_false, List.length_cons]
          exact Nat.lt_succ_of_le (Nat.le_of_lt (ih h))
      · rw [himp hd hq]
        simpa using ih h

/-- Number of mapping keys not yet on the visited path: the termination
measure of the tree builder. -/
def keysNotIn (data : Curriculum) (visited : List String) : Nat :=
  ((data.map Prod.fst).filter (fun k => decide (k ∉ visited))).length

/-- Visiting a present, not-yet-visited key strictly shrinks the measure. -/
theorem keysNotIn_lt (data : Curriculum) (code : String)
    (visited : List String) (hk : code ∈ data.map Prod.fst)
    (hv : code ∉ visited) :
    keysNotIn data (code :: visited) < keysNotIn data visited := by
  unfold keysNotIn
  refine length_filter_strict _ _ _ ?_ code hk ?_ ?_
  · intro x hx
    simp only [decide_eq_true_eq] at hx ⊢
    intro hmem
    exact hx (List.mem_cons_of_mem _ hmem)
  · simpa using hv
  · simp

/-- A node of the prerequisite tree of `get_prerequisites_tree`:
code, name, and the mapping of prerequisite code to sub-tree. -/
inductive PrereqTree where
  | node (code : String) (name : String)
      (prerequisites : List (String × PrereqTree)) : PrereqTree

mutual

/-- `schema.py` `build_tree` (lines 290-304): `None` (modelled `ok none`)
marks a pruned branch whose code is already on the current path; the
per-branch visited set is `visited.copy()` extended with the current code,
shared identically by all sibling recursive calls. -/
def build_tree (data : Curriculum) (code : String) (visited : List String) :
    Except Err (Option PrereqTree) :=
  if hvis : code ∈ visited then .ok none
  else
    match hfind : dictGet data code with
    | none => .error (.keyError code)
    | some course =>
      match course.name with
      | none => .error (.keyError "name")
      | some nm =>
        match buildTreeList data (course.prerequisites.getD []) (code :: visited) with
        | .error e => .error e
        | .ok prs => .ok (some (.node code nm prs))
termination_by (keysNotIn data visited, 0)
decreasing_by
  simp_wf
  apply Prod.Lex.left
  exact keysNotIn_lt data code visited (dictGet_mem data code course hfind) hvis

/-- The prerequisite loop of `build_tree`: build each sub-tree with the
same copied visited set, skipping pruned (`None`) branches. -/
def buildTreeList (data : Curriculum) (prereqs : List String)
    (visited : List String) : Except Err (List (String × PrereqTree)) :=
  match prereqs with
  | [] => .ok []
  | p :: rest =>
    match build_tree data p visited with
    | .error e => .error e
    | .ok t =>
      match buildTreeList data rest visited with
      | .error e => .error e
      | .ok prs =>
        .ok (match t with
             | none => prs
             | some tr => (p, tr) :: prs)
termination_by (keysNotIn data visited, prereqs.length + 1)
decreasing_by
  · simp_wf
    apply Prod.Lex.right
    simp
  · simp_wf
    apply Prod.Lex.right
    simp

end

/-- `schema.py` `CurriculumManager.get_prerequisites_tree`,
lines 285-306: absent code is rejected, then the recursive builder runs
with an empty visited set. -/
def get_prerequisites_tree (data : Curriculum) (code : String) :
    Except Err (Option PrereqTree) :=
  if code ∈ data.map Prod.fst then build_tree data code []
  else .error (.doesNotExist code)

/-- Course dict B listing A as its prerequisite, for the cyclic pair
`{A: prereqs=[B]}, {B: prereqs=[A]}` (A's dict is `cdDanglingA`). -/
def cdCycB : CourseDict :=
  { code := some "B", name := some "Course B", type := some "mandatory",
    semesters := some [⟨2, 1, ⟨15, 0, 0, 0, 15⟩⟩],
    prerequisites := some ["A"] }

/-- The cyclic curriculum `{A: prereqs=[B]}, {B: prereqs=[A]}` (a valid
curriculum: cycles are tolerated by `validate_curriculum`). -/
def cyclicAB : Curriculum := [("A", cdDanglingA), ("B", cdCycB)]

/-- C3: the prerequisite-tree builder is total (it terminates on every
curriculum, cyclic ones included — witnessed by `build_tree` being
accepted as a terminating function); a code already on the current
branch's path is pruned and contributes no sub-tree entry; and on the
cyclic pair `{A: prereqs=[B]}, {B: prereqs=[A]}` the tree rooted at A has
a node for B whose prerequisites mapping is empty. -/
theorem c3_prerequisite_tree_cycle_safe :
    (∀ (data : Curriculum) (p : String) (visited : List String),
      p ∈ visited → build_tree data p visited = .ok none) ∧
    validate_curriculum cyclicAB = .ok () ∧
    get_prerequisites_tree cyclicAB "A" =
      .ok (some (.node "A" "Course A" [("B", .node "B" "Course B" [])])) := by
  refine ⟨?_, rfl, ?_⟩
  · intro data p visited hp
    unfold build_tree
    rw [dif_pos hp]
  · simp [get_prerequisites_tree, build_tree, buildTreeList, dictGet,
      cyclicAB, cdCycB, cdDanglingA, List.find?]

/-- Witness for C3: a code on the visited path is pruned to `None`. -/
theorem c3_prerequisite_tree_cycle_safe_witness :
    build_tree cyclicAB "A" ["B", "A"] = .ok none :=
  c3_prerequisite_tree_cycle_safe.1 cyclicAB "A" ["B", "A"] (by decide)

/-- A spreadsheet cell as pandas sees it: a string, a number, or NaN
(blank/missing, `Cell.blank`). -/
inductive Cell where
  | str (s : String) : Cell
  | num (n : Int) : Cell
  | blank : Cell
deriving DecidableEq, Repr

/-- One tabular row: column name to cell. -/
abbrev Row := List (String × Cell)

/-- A loaded dataframe: column names plus rows. -/
structure Table where
  headers : List String
  rows : List Row
deriving DecidableEq, Repr

/-- Cell of a row under a column name. -/
def rowGet (r : Row) (k : String) : Option Cell :=
  (r.find? (fun kv => kv.1 == k)).map (fun kv => kv.2)

/-- pandas materializes every declared column in every row; absent cells
are NaN. -/
def normRow (headers : List String) (r : Row) : Row :=
  headers.map (fun h => (h, (rowGet r h).getD Cell.blank))

/-- `excel.py` `ExcelProcessor.REQUIRED_COLUMNS` (lines 13-19). -/
def REQUIRED_COLUMNS : List String :=
  ["course_code", "course_name", "credits", "semester", "prerequisites"]

/-- The numeric columns cleaned by `clean_dataframe` (line 33) — note the
capitalized names, disjoint from `REQUIRED_COLUMNS`. -/
def NUMERIC_CLEAN_COLUMNS : List String :=
  ["Credits", "Lecture", "Lab", "Practice", "Seminar", "Individual"]

/-- The string columns cleaned by `clean_dataframe` (line 41). -/
def STRING_CLEAN_COLUMNS : List String :=
  ["Course Code", "Course Name", "Type"]

/-- The needed columns absent from the headers, in needed order (Python
renders the unordered set difference). -/
def missingFrom (needed headers : List String) : List String :=
  needed.filter (fun c => !(headers.contains c))

/-- `excel.py` `validate_headers` (lines 24-28). -/
def validate_headers (t : Table) : Except Err Unit :=
  match missingFrom REQUIRED_COLUMNS t.headers with
  | [] => .ok ()
  | ms => .error (.missingColumns ms)

/-- `fillna(0)` then `astype(int)` on one numeric-column cell: NaN becomes
0, numbers stay, numeric strings parse (`astype` raises on other
strings). -/
def coerceNumCell : Cell → Except Err Cell
  | .blank => .ok (.num 0)
  | .num n => .ok (.num n)
  | .str s =>
    match s.toInt? with
    | some n => .ok (.num n)
    | none => .error (.valueError s)

/-- `fillna('')` then `.str.strip()` on one string-column cell (pandas
`.str` accessor maps non-strings to NaN rather than raising).  These
columns are never read back by `read_excel`, only their presence
matters. -/
def coerceStrCell : Cell → Cell
  | .blank => .str ""
  | .str s => .str s.trim
  | .num _ => .blank

/-- Per-cell effect of `clean_dataframe` based on its column. -/
def cleanCellAt (k : String) (c : Cell) : Except Err Cell :=
  if NUMERIC_CLEAN_COLUMNS.contains k then coerceNumCell c
  else if STRING_CLEAN_COLUMNS.contains k then .ok (coerceStrCell c)
  else .ok c

def cleanRow : Row → Except Err Row
  | [] => .ok []
  | (k, c) :: rest => do
    let c2 ← cleanCellAt k c
    let r2 ← cleanRow rest
    pure ((k, c2) :: r2)

/-- `excel.py` `clean_dataframe` (lines 30-45): `df[cols]` raises
`KeyError` on the first absent column (numeric set first, then string
set), then cells are coerced. -/
def clean_dataframe (headers : List String) (rows : List Row) :
    Except Err (List Row) :=
  match missingFrom NUMERIC_CLEAN_COLUMNS headers with
  | c :: _ => .error (.keyError c)
  | [] =>
    match missingFrom STRING_CLEAN_COLUMNS headers with
    | c :: _ => .error (.keyError c)
    | [] => rows.mapM cleanRow

/-- Python falsiness of a cell for the `if not course_code` skip check
(line 67).  NaN is treated like the empty string here (the spec's
blank-is-empty reading; the claims' continuation rows carry an explicit
empty string, which Python also skips). -/
def cellFalsy : Cell → Bool
  | .blank => true
  | .str s => s == ""
  | .num n => n == 0

/-- The course-code cell used as dict key; the claims only exercise
string codes. -/
def cellKeyString : Cell → Except Err String
  | .str s => .ok s
  | _ => .error (.valueError "course_code")

/-- A raw string-ish cell (`course_name` is read uncleaned). -/
def cellStrLoose : Cell → String
  | .str s => s
  | .blank => ""
  | .num n => toString n

/-- A raw numeric cell (`semester`/`credits` are read uncleaned; every
claim input carries integers here). -/
def cellIntStrict : Cell → Except Err Int
  | .num n => .ok n
  | .str s => .error (.valueError s)
  | .blank => .error (.valueError "nan")

def getCol (r : Row) (k : String) : Except Err Cell :=
  match rowGet r k with
  | some c => .ok c
  | none => .error (.keyError k)

def getIntCol (r : Row) (k : String) : Except Err Int := do
  let c ← getCol r k
  cellIntStrict c

/-- `excel.py` `process_prerequisites` (lines 47-51): blank or empty
means no prerequisites, otherwise split on commas and trim each code (a
non-zero number would hit `.split` and raise). -/
def process_prerequisites : Cell → Except Err (List String)
  | .blank => .ok []
  | .str s => if s = "" then .ok [] else .ok ((s.splitOn ",").map String.trim)
  | .num n => if n = 0 then .ok [] else .error (.valueError "split")

/-- `curriculum_data[course_code]['semesters'] = [semester_data]`
(line 97): replace the semesters of the first entry with that key. -/
def updateSemesters : Curriculum → String → List SemesterData → Curriculum
  | [], _, _ => []
  | (k, cd) :: rest, code, sds =>
    if k = code then (k, { cd with semesters := some sds }) :: rest
    else (k, cd) :: updateSemesters rest code sds

/-- One iteration of the row loop of `read_excel` (lines 63-97), in source
evaluation order: rows with a falsy `course_code` are skipped outright;
hour distribution and semester data are built next; a repeated code
*replaces* the entry's `semesters` with the one-element list; a new code
inserts a dict holding only `course_code`/`course_name`/`credits`/
`semester`/`prerequisites` — no `code`, `name`, `type` or `semesters`
key. -/
def processRow (acc : Curriculum) (r : Row) : Except Err Curriculum := do
  let codeCell ← getCol r "course_code"
  if cellFalsy codeCell then
    pure acc
  else do
    let code ← cellKeyString codeCell
    let lec ← getIntCol r "Lecture"
    let lab ← getIntCol r "Lab"
    let pra ← getIntCol r "Practice"
    let sem ← getIntCol r "Seminar"
    let ind ← getIntCol r "Individual"
    let semN ← getIntCol r "semester"
    let cred ← getIntCol r "credits"
    let sd : SemesterData := ⟨semN, cred, ⟨lec, lab, pra, sem, ind⟩⟩
    if code ∈ acc.map Prod.fst then
      pure (updateSemesters acc code [sd])
    else do
      let nameCell ← getCol r "course_name"
      let prereqs ← process_prerequisites ((rowGet r "prerequisites").getD (.str ""))
      pure (dictInsert acc code
        { course_code := some code, course_name := some (cellStrLoose nameCell),
          credits := some cred, semester := some semN,
          prerequisites := some prereqs })

/-- The body of `read_excel` before exception wrapping. -/
def read_excel_inner (t : Table) : Except Err Curriculum := do
  validate_headers t
  let norm := t.rows.map (normRow t.headers)
  let cleaned ← clean_dataframe t.headers norm
  let data ← cleaned.foldlM processRow []
  validate_curriculum data
  pure data

/-- `excel.py` `ExcelProcessor.read_excel` (lines 53-104): every failure
inside the try block is re-raised as "Error processing Excel file". -/
def read_excel (t : Table) : Except Err Curriculum :=
  match read_excel_inner t with
  | .ok d => .ok d
  | .error e => .error (.excelError e)

/-- The header row written by `export_excel` (line 113):
`REQUIRED_COLUMNS + ['Prerequisites']`. -/
def exportHeaders : List String := REQUIRED_COLUMNS ++ ["Prerequisites"]

/-- The per-semester rows of one course in `export_excel` (lines 123-144),
in source evaluation order: the first row reads `course_data['course_name']`
and `course_data['prerequisites']` (raising `KeyError` when absent);
continuation rows blank those fields and carry only credits/semester. -/
def exportSemRows (course_code : String) (cd : CourseDict) :
    Bool → List SemesterData → Except Err (List Row)
  | _, [] => .ok []
  | first, sd :: rest => do
    let nm ← if first then getKey cd.course_name "course_name" else pure ""
    let prs ← if first then getKey cd.prerequisites "prerequisites" else pure []
    let row : Row :=
      [("course_code", .str (if first then course_code else "")),
       ("course_name", .str nm),
       ("credits", .num sd.credits),
       ("semester", .num sd.semester),
       ("prerequisites", .str (if first then String.intercalate ", " prs else ""))]
    let rows ← exportSemRows course_code cd false rest
    pure (row :: rows)

/-- One course of `export_excel`: `course_data['semesters']` is read first
(line 124). -/
def exportCourseRows (course_code : String) (cd : CourseDict) :
    Except Err (List Row) := do
  let sems ← getKey cd.semesters "semesters"
  exportSemRows course_code cd true sems

/-- `excel.py` `ExcelProcessor.export_excel` (lines 106-151), data shaping
only (styling and file output dropped): one row per semester per course in
mapping order, under `exportHeaders`. -/
def export_excel (data : Curriculum) : Except Err Table := do
  let rowss ← data.mapM (fun kv => exportCourseRows kv.1 kv.2)
  pure { headers := exportHeaders, rows := rowss.flatten }

/-- The warning loop of `preview_data` (lines 160-178): per course, in
mapping order — total credits over 8, more than 3 prerequisites, more
than 2 semesters (each reads the dict with bracket access). -/
def warningsOf : Curriculum → Except Err (List String)
  | [] => .ok []
  | (code, cd) :: rest => do
    let sems ← getKey cd.semesters "semesters"
    let total := sems.foldl (fun a s => a + s.credits) 0
    let w1 : List String :=
      if total > 8 then
        [s!"Warning: Course {code} has unusually high credits ({total})"]
      else []
    let prs ← getKey cd.prerequisites "prerequisites"
    let np := prs.length
    let w2 : List String :=
      if np > 3 then
        [s!"Warning: Course {code} has many prerequisites ({np})"]
      else []
    let ns := sems.length
    let w3 : List String :=
      if ns > 2 then
        [s!"Warning: Course {code} spans {ns} semesters"]
      else []
    let ws ← warningsOf rest
    pure (w1 ++ w2 ++ w3 ++ ws)

/-- `excel.py` `ExcelProcessor.preview_data` (lines 153-185):
`read_excel` then the warning loop; a `ValidationError` is re-wrapped as
"Validation error during preview", any other exception (the warning
loop's `KeyError`s) as "Error during preview". -/
def preview_data (t : Table) : Except Err (Curriculum × List String) :=
  match read_excel t with
  | .error e => .error (.previewError e)
  | .ok d =>
    match warningsOf d with
    | .error e => .error (.previewOther e)
    | .ok ws => .ok (d, ws)

/-- `schema.py` `CurriculumSchema.example_single_semester_course`
(lines 171-189), as the stored dict. -/
def exampleCS101 : CourseDict :=
  { code := some "CS101", name := some "Introduction to Programming",
    type := some "mandatory",
    semesters := some [⟨1, 3, ⟨30, 30, 0, 0, 30⟩⟩],
    prerequisites := some [] }

/-- `schema.py` `CurriculumSchema.example_multi_semester_course`
(lines 192-223), as the stored dict. -/
def exampleCS201 : CourseDict :=
  { code := some "CS201", name := some "Advanced Programming",
    type := some "mandatory",
    semesters := some [⟨2, 2, ⟨15, 15, 15, 0, 15⟩⟩, ⟨3, 3, ⟨30, 30, 15, 0, 15⟩⟩],
    prerequisites := some ["CS101"] }

/-- `schema.py` `CurriculumSchema.example_complete_curriculum`
(lines 226-231). -/
def exampleCurr : Curriculum :=
  [("CS101", exampleCS101), ("CS201", exampleCS201)]

/-- C1 (code bug): the round-trip law fails on every valid curriculum.
The repository's own example curriculum validates, yet encoding it raises
`KeyError('course_name')` (records store `name`, but `export_excel` line
127 reads `course_name`); and even for the empty curriculum, decoding the
exported header layout raises `KeyError('Credits')` because
`clean_dataframe` requires capitalized columns the export never writes —
so `decode(encode(C)) = C` holds for no valid curriculum. -/
theorem c1_round_trip_broken :
    validate_curriculum exampleCurr = .ok () ∧
    export_excel exampleCurr = .error (.keyError "course_name") ∧
    validate_curriculum [] = .ok () ∧
    read_excel { headers := exportHeaders, rows := [] } =
      .error (.excelError (.keyError "Credits")) :=
  ⟨rfl, rfl, rfl, rfl⟩

/-- The headers of the claims' tabular fixtures: the required columns
plus everything `clean_dataframe` insists on. -/
def fullHeaders : List String :=
  REQUIRED_COLUMNS ++ ["Lecture", "Lab", "Practice", "Seminar", "Individual",
    "Credits", "Course Code", "Course Name", "Type"]

/-- First row of the C2 fixture: course CS201, semester 1, credits 2. -/
def c2Row1 : Row :=
  [("course_code", .str "CS201"), ("course_name", .str "Data Structures"),
   ("credits", .num 2), ("semester", .num 1), ("prerequisites", .str ""),
   ("Lecture", .num 15), ("Lab", .num 15), ("Practice", .num 15),
   ("Seminar", .num 0), ("Individual", .num 15), ("Credits", .num 2)]

/-- Second row of the C2 fixture: the continuation row (empty course
code), semester 2, credits 3. -/
def c2Row2 : Row :=
  [("course_code", .str ""), ("course_name", .str ""),
   ("credits", .num 3), ("semester", .num 2), ("prerequisites", .str ""),
   ("Lecture", .num 30), ("Lab", .num 30), ("Practice", .num 15),
   ("Seminar", .num 0), ("Individual", .num 15), ("Credits", .num 3)]

/-- The two rows of C2's continuation-row example, with every column the
row loop needs. -/
def c2Table : Table := { headers := fullHeaders, rows := [c2Row1, c2Row2] }

/-- C2 (code bug): the claimed continuation-row decoding never happens.
`read_excel` line 67 *skips* rows with an empty `course_code` (`continue`)
instead of attaching them to the previous course, and the record it builds
for CS201 has no `code` (or `semesters`) key, so the final
`validate_curriculum` rejects the result with a code mismatch — the two
rows decode to an error, not to one course with two SemesterData. -/
theorem c2_continuation_rows_skipped :
    read_excel c2Table = .error (.excelError (.codeMismatch "CS201" none)) :=
  rfl

/-- The C9 fixture row: course CS500 with 9 credits in one semester
(270 hours, arithmetically valid). -/
def c9Row : Row :=
  [("course_code", .str "CS500"), ("course_name", .str "Capstone Project"),
   ("credits", .num 9), ("semester", .num 1), ("prerequisites", .str ""),
   ("Lecture", .num 135), ("Lab", .num 0), ("Practice", .num 0),
   ("Seminar", .num 0), ("Individual", .num 135), ("Credits", .num 9)]

def c9Table : Table := { headers := fullHeaders, rows := [c9Row] }

/-- The well-formed stored dict for CS500 with 9 total credits. -/
def cdNineCredits : CourseDict :=
  { code := some "CS500", name := some "Capstone Project",
    type := some "mandatory",
    semesters := some [⟨1, 9, ⟨135, 0, 0, 0, 135⟩⟩],
    prerequisites := some [] }

/-- C9 (code bug): the warning loop of `preview_data` does implement the
claimed soft checks — on a well-formed 9-credit course it yields exactly
the "unusually high credits (9)" warning — but decode never succeeds on
such input: `preview_data` on the CS500 table fails inside `read_excel`
(code-mismatch, as in C2) before any warning is computed, so no warning
is ever returned alongside a successful decode. -/
theorem c9_warnings_never_reached :
    validate_curriculum [("CS500", cdNineCredits)] = .ok () ∧
    warningsOf [("CS500", cdNineCredits)] =
      .ok ["Warning: Course CS500 has unusually high credits (9)"] ∧
    preview_data c9Table =
      .error (.previewError (.excelError (.codeMismatch "CS500" none))) :=
  ⟨rfl, rfl, rfl⟩
